import Mathlib

/-!
Verification of the Ollama translation client
(`plugins/ai_subtitle/translate/ollama_translate.py`).

The client is embedded shallowly:

* a chat message is a `Msg` (a `role` string and a `content` string),
  mirroring the dicts `{"role": ..., "content": ...}` built by the source;
* the caller-supplied session cache (a Python dict mapping session ids to
  lists of messages) is a partial map `Dict := String → Option (List Msg)`;
* the HTTP layer is parameterised: `HttpOutcome` is either a transport
  failure carrying the exception text, or a parsed JSON body
  (`ResponseData`, with the optional `message` object and its optional
  `content` string);
* `translate_text` returns a `TranslateResult` recording the `(bool, str)`
  pair the source returns, the final state of the session cache, and the
  message list that was sent in the request.

Python list aliasing is modelled explicitly: `session_cache.get(sid, [])`
returns the stored list by reference when the key is present (so in-place
appends are visible in the cache) and a fresh unstored list when it is
absent (so appends to it leave the cache unchanged).
-/

/-- A chat message: `{"role": r, "content": c}`. -/
structure Msg where
  role : String
  content : String
deriving DecidableEq, Inhabited

/-- The session cache: a Python dict from session id to message list. -/
def Dict : Type := String → Option (List Msg)

instance : Inhabited Dict := ⟨fun _ => none⟩

/-- The optional `message` object of a chat response body; `content` is
`some s` exactly when the JSON object has a `content` field (with value `s`). -/
structure MsgObj where
  content : Option String
deriving DecidableEq

/-- A parsed JSON body of `POST /api/chat`; `message` is `some m` exactly
when the body has a `message` field. -/
structure ResponseData where
  message : Option MsgObj
deriving DecidableEq

/-- Outcome of the underlying HTTP POST: a `requests` exception text, or a
successfully parsed JSON body. -/
inductive HttpOutcome where
  | failure (err : String)
  | success (data : ResponseData)
deriving DecidableEq

/-- `str.strip()` on the response content: remove leading and trailing
whitespace. -/
def strip (s : String) : String :=
  ⟨((s.data.dropWhile Char.isWhitespace).reverse.dropWhile Char.isWhitespace).reverse⟩

/-- `Ollama.__send_request`'s error wrapping: a `RequestException` (network
error or non-2xx status via `raise_for_status`) is re-raised as
`Exception("请求Ollama API失败: " + str(e))`; a good response is returned. -/
def send_request (outcome : HttpOutcome) : Except String ResponseData :=
  match outcome with
  | .failure e => .error ("请求Ollama API失败: " ++ e)
  | .success d => .ok d

/-- The default generation options dict built by `Ollama.__send_request`:
`{"temperature": 0.1, "top_p": 0.9}`. -/
def defaultOptions : String → Option ℚ :=
  fun k => if k = "temperature" then some (1 / 10)
    else if k = "top_p" then some (9 / 10)
    else none

/-- `payload["options"].update(kwargs)`: merge the caller's extra options
into the defaults, later entries overriding. -/
def requestOptions (kwargs : List (String × ℚ)) : String → Option ℚ :=
  kwargs.foldl (fun acc kv => fun k => if k = kv.1 then some kv.2 else acc k)
    defaultOptions

/-- The fixed system message content hard-coded in `Ollama.__get_session`. -/
def sessionSystemContent : String :=
  "你是一个专业的翻译专家，请准确流畅地进行中英互译。"

/-- `Ollama.__get_session`: `session = session_cache.get(session_id, [])`;
append a system message if the session is empty, then the user message.
When the key is present the stored list is aliased, so the appends mutate
the cache entry in place; when it is absent the fresh default list is never
stored, so the cache is returned unchanged. -/
def get_session (session_id : String) (message : String) (session_cache : Dict) :
    List Msg × Dict :=
  match session_cache session_id with
  | some stored =>
      let s1 := if stored = [] then stored ++ [⟨"system", sessionSystemContent⟩] else stored
      let s2 := s1 ++ [⟨"user", message⟩]
      (s2, fun k => if k = session_id then some s2 else session_cache k)
  | none =>
      let s1 : List Msg := [⟨"system", sessionSystemContent⟩]
      let s2 := s1 ++ [⟨"user", message⟩]
      (s2, session_cache)

/-- `Ollama.__save_session`: re-fetch `session_cache.get(session_id, [])`,
append the assistant message and store the result under the key. -/
def save_session (session_id : String) (assistant_message : String)
    (session_cache : Dict) : Dict :=
  let session := (session_cache session_id).getD []
  fun k => if k = session_id then some (session ++ [⟨"assistant", assistant_message⟩])
    else session_cache k

/-- The per-call system prompt built in `Ollama.translate_text` (step 1 of
the spec): it names the target language. -/
def systemPrompt (target_lang : String) : String :=
  "你是一位专业的翻译专家，请严格遵循以下规则：\n1. 将文本精准翻译为" ++ target_lang ++
    "，保持原文本意\n2. 使用自然的口语化表达，符合目标语言的阅读习惯\n3. 结合上下文语境，保持术语和风格的一致性\n4. 只输出译文，不要添加任何解释、说明或额外内容"

/-- The user message built in `Ollama.translate_text`: `"需要翻译的文本：\n" + text`,
with `"翻译上下文：\n" + context + "\n\n"` prepended when `context` is truthy
(`if context:` is false for `None` and for the empty string). -/
def userMessage (text : String) (context : Option String) : String :=
  let base := "需要翻译的文本：\n" ++ text
  match context with
  | some c => if c = "" then base else "翻译上下文：\n" ++ c ++ "\n\n" ++ base
  | none => base

/-- What `Ollama.translate_text` produces: the `(bool, str)` return value,
the final state of the (optional) session cache, and the message list sent
in the request. -/
structure TranslateResult where
  ok : Bool
  payload : String
  cache : Option Dict
  sent : List Msg

/-- `Ollama.translate_text`, parameterised by the HTTP outcome.  The branch
`if session_id and session_cache is not None` requires a truthy (non-empty)
session id and a non-`None` cache; the same test guards `__save_session`
after a well-formed response. -/
def translate_text (text : String) (target_lang : String) (context : Option String)
    (session_id : Option String) (session_cache : Option Dict)
    (outcome : HttpOutcome) : TranslateResult :=
  let system_prompt := systemPrompt target_lang
  let user_message := userMessage text context
  let started : List Msg × Option Dict :=
    match session_id, session_cache with
    | some sid, some cache =>
        if sid = "" then
          ([⟨"system", system_prompt⟩, ⟨"user", user_message⟩], some cache)
        else
          let p := get_session sid user_message cache
          (p.1, some p.2)
    | _, _ => ([⟨"system", system_prompt⟩, ⟨"user", user_message⟩], session_cache)
  let messages := started.1
  let cache1 := started.2
  match send_request outcome with
  | .error e => ⟨false, "翻译过程中出错: " ++ e, cache1, messages⟩
  | .ok rd =>
      match rd.message with
      | some mobj =>
          match mobj.content with
          | some content =>
              let translated := strip content
              let cache2 :=
                match session_id, cache1 with
                | some sid, some c =>
                    if sid = "" then cache1 else some (save_session sid translated c)
                | _, _ => cache1
              ⟨true, translated, cache2, messages⟩
          | none => ⟨false, "API响应格式异常", cache1, messages⟩
      | none => ⟨false, "API响应格式异常", cache1, messages⟩

/-- `Ollama.clear_session`: `if session_id in session_cache: del ...`. -/
def clear_session (session_id : String) (session_cache : Dict) : Dict :=
  if (session_cache session_id).isSome then
    fun k => if k = session_id then none else session_cache k
  else session_cache

/-- An entry of the `models` array of `GET /api/tags`; `name` is `some s`
exactly when the object has a `name` field. -/
structure ModelEntry where
  name : Option String
deriving DecidableEq

/-- A parsed JSON body of `GET /api/tags`; `models` is `some l` exactly when
the body has a `models` field. -/
structure TagsData where
  models : Option (List ModelEntry)
deriving DecidableEq

/-- The list comprehension `[model['name'] for model in ...]`: left to
right, `model['name']` raises `KeyError('name')` on the first entry lacking
the field. -/
def extractNames : List ModelEntry → Except String (List String)
  | [] => .ok []
  | e :: rest =>
      match e.name with
      | some n => (extractNames rest).map (fun ns => n :: ns)
      | none => .error "'name'"

/-- `Ollama.list_models`, parameterised by the HTTP outcome of
`GET /api/tags` (exception text or parsed body).  Any exception is caught
and reported as `(False, ["获取模型列表失败: " + str(e)])`. -/
def list_models (outcome : Except String TagsData) : Bool × List String :=
  match outcome with
  | .error e => (false, ["获取模型列表失败: " ++ e])
  | .ok d =>
      match extractNames (d.models.getD []) with
      | .ok names => (true, names)
      | .error e => (false, ["获取模型列表失败: " ++ e])

/-- C10: with `session_id = ""` (falsy) and a non-null cache,
`translate_text` takes the no-session branch: the request carries the fresh
two-message list `[system prompt, user message]` and the cache comes back
exactly as it was, whatever the HTTP outcome. -/
theorem translate_text_empty_session_id_no_session (text target : String)
    (context : Option String) (c : Dict) (outcome : HttpOutcome) :
    (translate_text text target context (some "") (some c) outcome).sent
      = [⟨"system", systemPrompt target⟩, ⟨"user", userMessage text context⟩] ∧
    (translate_text text target context (some "") (some c) outcome).cache = some c := by
  cases outcome with
  | failure e => exact ⟨rfl, rfl⟩
  | success d =>
      rcases d with ⟨m⟩
      rcases m with _ | ⟨co⟩
      · exact ⟨rfl, rfl⟩
      · rcases co with _ | s
        · exact ⟨rfl, rfl⟩
        · exact ⟨rfl, rfl⟩

/-- C9: `clear_session` removes the given id's entry when present, is the
identity when absent, and never touches another id's entry. -/
theorem clear_session_spec (sid : String) (cache : Dict) :
    clear_session sid cache sid = none ∧
    (cache sid = none → clear_session sid cache = cache) ∧
    ∀ k, k ≠ sid → clear_session sid cache k = cache k := by
  unfold clear_session
  cases h : cache sid with
  | none =>
      simp [h]
  | some l =>
      refine ⟨by simp, ?_, ?_⟩
      · intro h2; cases h2
      · intro k hk; simp [hk]

/-- Witness for `clear_session_spec`: clearing the absent id `"a"` leaves a
cache holding only `"b"` untouched, and `"b"`'s entry is unchanged. -/
theorem clear_session_spec_witness :
    clear_session "a" (fun k => if k = "b" then some [] else none)
        = (fun k => if k = "b" then some [] else none) ∧
    clear_session "a" (fun k => if k = "b" then some [] else none) "b"
        = (fun k => if k = "b" then some ([] : List Msg) else none) "b" := by
  refine ⟨(clear_session_spec "a" _).2.1 (by decide),
    (clear_session_spec "a" _).2.2 "b" (by decide)⟩

/-- C8: `list_models` maps a well-formed `models` array to the name list in
server order, and reports any caught exception as a failure whose payload is
a singleton descriptive message in the name-list slot. -/
theorem list_models_spec (names : List String) (e : String) :
    list_models (.ok ⟨some (names.map (fun n => ⟨some n⟩))⟩) = (true, names) ∧
    list_models (.error e) = (false, ["获取模型列表失败: " ++ e]) := by
  constructor
  · have h : extractNames (names.map (fun n => ⟨some n⟩)) = .ok names := by
      induction names with
      | nil => rfl
      | cons n ns ih => simp [extractNames, ih, Except.map]
    simp [list_models, h]
  · rfl

/-- Keys absent from the extra-options list are untouched by the merge. -/
theorem foldl_update_not_mem (l : List (String × ℚ)) (base : String → Option ℚ)
    (k : String) (hk : k ∉ l.map Prod.fst) :
    l.foldl (fun acc kv => fun j => if j = kv.1 then some kv.2 else acc j) base k
      = base k := by
  induction l generalizing base with
  | nil => rfl
  | cons a l ih =>
      simp only [List.map_cons, List.mem_cons, not_or] at hk
      rw [List.foldl_cons, ih _ hk.2]
      simp [hk.1]

/-- A key named by the extra-options list (with pairwise distinct keys, as a
Python dict has) ends up mapped to its supplied value. -/
theorem foldl_update_mem (l : List (String × ℚ)) (base : String → Option ℚ)
    (k : String) (v : ℚ) (hmem : (k, v) ∈ l) (hnd : (l.map Prod.fst).Nodup) :
    l.foldl (fun acc kv => fun j => if j = kv.1 then some kv.2 else acc j) base k
      = some v := by
  induction l generalizing base with
  | nil => cases hmem
  | cons a l ih =>
      simp only [List.map_cons, List.nodup_cons] at hnd
      rcases List.mem_cons.mp hmem with h | h
      · subst h
        rw [List.foldl_cons, foldl_update_not_mem _ _ _ hnd.1]
        simp
      · rw [List.foldl_cons]
        exact ih _ h hnd.2

/-- C5: the generation options always default `temperature` to `0.1` and
`top_p` to `0.9`, and a caller-supplied extra option overrides exactly the
key it names, leaving every unnamed key at its default. -/
theorem requestOptions_spec (kwargs : List (String × ℚ))
    (hnd : (kwargs.map Prod.fst).Nodup) :
    (∀ k v, (k, v) ∈ kwargs → requestOptions kwargs k = some v) ∧
    (∀ k, k ∉ kwargs.map Prod.fst → requestOptions kwargs k = defaultOptions k) ∧
    defaultOptions "temperature" = some (1 / 10) ∧
    defaultOptions "top_p" = some (9 / 10) := by
  refine ⟨fun k v hmem => foldl_update_mem kwargs defaultOptions k v hmem hnd,
    fun k hk => foldl_update_not_mem kwargs defaultOptions k hk, rfl, ?_⟩
  unfold defaultOptions
  rw [if_neg (by decide), if_pos rfl]

/-- Witness for `requestOptions_spec`: `extraOptions = {"temperature": 0.5}`
yields `temperature = 0.5` while `top_p` stays at `0.9`. -/
theorem requestOptions_spec_witness :
    requestOptions [("temperature", (1 : ℚ) / 2)] "temperature" = some ((1 : ℚ) / 2) ∧
    requestOptions [("temperature", (1 : ℚ) / 2)] "top_p" = some ((9 : ℚ) / 10) := by
  have h := requestOptions_spec [("temperature", (1 : ℚ) / 2)] (by simp)
  exact ⟨h.1 "temperature" ((1 : ℚ) / 2) (by simp),
    (h.2.1 "top_p" (by simp)).trans h.2.2.2⟩

/-- C7: a well-formed response body yields success with the trimmed
content; a body whose `message` object lacks `content` (or lacks `message`
entirely) yields the fixed format-error failure, with no exception. -/
theorem translate_text_response_parsing (text target : String)
    (context session_id : Option String) (session_cache : Option Dict)
    (d : ResponseData) :
    (∀ m c, d.message = some m → m.content = some c →
      (translate_text text target context session_id session_cache (.success d)).ok = true ∧
      (translate_text text target context session_id session_cache (.success d)).payload
        = strip c) ∧
    ((d.message = none ∨ d.message = some ⟨none⟩) →
      (translate_text text target context session_id session_cache (.success d)).ok = false ∧
      (translate_text text target context session_id session_cache (.success d)).payload
        = "API响应格式异常") := by
  rcases d with ⟨m⟩
  rcases m with _ | ⟨co⟩
  · exact ⟨(fun m c hm => nomatch hm), fun _ => ⟨rfl, rfl⟩⟩
  · rcases co with _ | s
    · refine ⟨fun m c hm hc => ?_, fun _ => ⟨rfl, rfl⟩⟩
      cases hm; cases hc
    · refine ⟨fun m c hm hc => ?_, fun h => ?_⟩
      · cases hm; cases hc; exact ⟨rfl, rfl⟩
      · rcases h with h | h <;> simp at h

/-- Witness for `translate_text_response_parsing`: a body carrying
`{"message": {"content": " hi "}}` succeeds with the trimmed text, and a
body carrying `{"message": {}}` fails with the format-error message. -/
theorem translate_text_response_parsing_witness :
    (translate_text "t" "zh" none none none (.success ⟨some ⟨some " hi "⟩⟩)).ok = true ∧
    (translate_text "t" "zh" none none none (.success ⟨some ⟨some " hi "⟩⟩)).payload
      = strip " hi " ∧
    (translate_text "t" "zh" none none none (.success ⟨some ⟨none⟩⟩)).ok = false ∧
    (translate_text "t" "zh" none none none (.success ⟨some ⟨none⟩⟩)).payload
      = "API响应格式异常" := by
  have h1 := translate_text_response_parsing "t" "zh" none none none ⟨some ⟨some " hi "⟩⟩
  have h2 := translate_text_response_parsing "t" "zh" none none none ⟨some ⟨none⟩⟩
  exact ⟨(h1.1 _ _ rfl rfl).1, (h1.1 _ _ rfl rfl).2,
    (h2.2 (Or.inr rfl)).1, (h2.2 (Or.inr rfl)).2⟩

/-- On a transport failure the final cache is exactly the state left by the
message-assembly phase: unchanged outside the session branch, and the
(aliased) result of `get_session` inside it. -/
theorem translate_text_failure_cache (text target : String) (context : Option String)
    (session_id : Option String) (session_cache : Option Dict) (err : String) :
    (translate_text text target context session_id session_cache (.failure err)).cache
      = match session_id, session_cache with
        | some s, some c =>
            if s = "" then some c
            else some (get_session s (userMessage text context) c).2
        | _, _ => session_cache := by
  rcases session_id with _ | s <;> rcases session_cache with _ | c <;> try rfl
  by_cases hs : s = "" <;> simp [translate_text, send_request, hs]

/-- The message list sent in the request, for every HTTP outcome: the fresh
two-message list outside the session branch, the `get_session` list inside
it. -/
theorem translate_text_sent (text target : String) (context : Option String)
    (session_id : Option String) (session_cache : Option Dict) (outcome : HttpOutcome) :
    (translate_text text target context session_id session_cache outcome).sent
      = match session_id, session_cache with
        | some s, some c =>
            if s = "" then
              [⟨"system", systemPrompt target⟩, ⟨"user", userMessage text context⟩]
            else (get_session s (userMessage text context) c).1
        | _, _ => [⟨"system", systemPrompt target⟩, ⟨"user", userMessage text context⟩] := by
  have hcases : ∀ o : HttpOutcome,
      (translate_text text target context session_id session_cache o).sent
        = (translate_text text target context session_id session_cache (.failure "")).sent := by
    intro o
    cases o with
    | failure e => rfl
    | success d =>
        rcases d with ⟨_ | ⟨_ | s⟩⟩ <;> rfl
  rw [hcases outcome]
  rcases session_id with _ | s <;> rcases session_cache with _ | c <;> try rfl
  by_cases hs : s = "" <;> simp [translate_text, send_request, hs]

/-- C3 (amended): on a transport failure `translate_text` returns a failure
whose message wraps the transport error, and no assistant message is
appended; the cache gains no new entry — a call whose session id is not yet
stored (or which uses no session) leaves the cache exactly as it was — but
a call on an already-stored session has, before the request was sent,
already appended the user message to the stored sequence through aliasing
(seeding the system message first when the stored sequence was empty). -/
theorem translate_text_transport_failure (text target : String)
    (context session_id : Option String) (session_cache : Option Dict) (err : String) :
    (translate_text text target context session_id session_cache (.failure err)).ok = false ∧
    (translate_text text target context session_id session_cache (.failure err)).payload
      = "翻译过程中出错: " ++ ("请求Ollama API失败: " ++ err) ∧
    ((∀ s, session_id = some s → s = "") ∨ session_cache = none →
      (translate_text text target context session_id session_cache (.failure err)).cache
        = session_cache) ∧
    (∀ s c, session_id = some s → session_cache = some c → s ≠ "" → c s = none →
      (translate_text text target context session_id session_cache (.failure err)).cache
        = some c) ∧
    (∀ s c stored, session_id = some s → session_cache = some c → s ≠ "" →
      c s = some stored → stored ≠ [] →
      (translate_text text target context session_id session_cache (.failure err)).cache
        = some (fun k => if k = s then
            some (stored ++ [⟨"user", userMessage text context⟩]) else c k)) ∧
    (∀ s c, session_id = some s → session_cache = some c → s ≠ "" → c s = some [] →
      (translate_text text target context session_id session_cache (.failure err)).cache
        = some (fun k => if k = s then
            some [⟨"system", sessionSystemContent⟩, ⟨"user", userMessage text context⟩]
          else c k)) := by
  refine ⟨rfl, rfl, ?_, ?_, ?_, ?_⟩
  · intro h
    rw [translate_text_failure_cache]
    rcases session_id with _ | s <;> rcases session_cache with _ | c <;> try rfl
    rcases h with h | h
    · simp [h s rfl]
    · cases h
  · intro s c h1 h2 hs hcs
    subst h1; subst h2
    rw [translate_text_failure_cache]
    simp [hs, get_session, hcs]
  · intro s c stored h1 h2 hs hcs hne
    subst h1; subst h2
    rw [translate_text_failure_cache]
    simp [hs, get_session, hcs, hne]
  · intro s c h1 h2 hs hcs
    subst h1; subst h2
    rw [translate_text_failure_cache]
    simp [hs, get_session, hcs]

/-- Witness for `translate_text_transport_failure`: an HTTP 500 on an
existing one-message session fails, and the stored sequence has gained
exactly the user message. -/
theorem translate_text_transport_failure_witness :
    (translate_text "t" "zh" none (some "s")
        (some (fun k => if k = "s" then some [⟨"assistant", "a1"⟩] else none))
        (.failure "HTTP 500")).ok = false ∧
    (translate_text "t" "zh" none (some "s")
        (some (fun k => if k = "s" then some [⟨"assistant", "a1"⟩] else none))
        (.failure "HTTP 500")).cache
      = some (fun k => if k = "s" then
          some ([⟨"assistant", "a1"⟩] ++ [⟨"user", userMessage "t" none⟩])
        else (fun k => if k = "s" then some [⟨"assistant", "a1"⟩] else none) k) := by
  have h := translate_text_transport_failure "t" "zh" none (some "s")
    (some (fun k => if k = "s" then some [⟨"assistant", "a1"⟩] else none)) "HTTP 500"
  exact ⟨h.1, h.2.2.2.2.1 "s" _ [⟨"assistant", "a1"⟩] rfl rfl (by decide) (by decide)
    (by decide)⟩

/-- Cache holding a single already-stored session `"s"` whose sequence is
one assistant message; used to refute the unmodified-on-failure claim. -/
def oneMsgCache : Dict := fun k => if k = "s" then some [⟨"assistant", "a1"⟩] else none

/-- C3 counterexample: with session `"s"` already stored as
`[assistant "a1"]`, an HTTP 500 leaves the cache entry *modified*: the user
message was appended in place before the request, so the stored sequence is
no longer what it was. -/
theorem transport_failure_modifies_existing_session :
    ((translate_text "t" "zh" none (some "s") (some oneMsgCache)
        (.failure "HTTP 500")).cache.getD oneMsgCache) "s"
      = some [⟨"assistant", "a1"⟩, ⟨"user", "需要翻译的文本：\nt"⟩] ∧
    oneMsgCache "s" = some [⟨"assistant", "a1"⟩] ∧
    ([⟨"assistant", "a1"⟩, ⟨"user", "需要翻译的文本：\nt"⟩] : List Msg)
      ≠ [⟨"assistant", "a1"⟩] := by
  exact ⟨rfl, rfl, by decide⟩

/-- C4 (amended): when a call takes the session branch on an empty session
(absent key, or a stored empty sequence), the first entry appended to the
session's message sequence is the *fixed* generic system prompt hard-coded
in the session helper — independent of the call's target language — not the
per-call system prompt of step 1, which the session branch discards. -/
theorem session_seed_is_fixed_prompt (text target : String) (context : Option String)
    (sid : String) (cache : Dict) (outcome : HttpOutcome)
    (hsid : sid ≠ "") (hempty : cache sid = none ∨ cache sid = some []) :
    (translate_text text target context (some sid) (some cache) outcome).sent.head?
      = some ⟨"system", sessionSystemContent⟩ := by
  rw [translate_text_sent]
  rcases hempty with h | h <;> simp [hsid, get_session, h]

/-- Witness for `session_seed_is_fixed_prompt`: a first call on the fresh
session `"s"` with target language `"French"` sends the fixed generic
system prompt first. -/
theorem session_seed_is_fixed_prompt_witness :
    (translate_text "hi" "French" none (some "s") (some (fun _ => none))
        (.success ⟨some ⟨some "x"⟩⟩)).sent.head?
      = some ⟨"system", sessionSystemContent⟩ := by
  exact session_seed_is_fixed_prompt "hi" "French" none "s" (fun _ => none)
    (.success ⟨some ⟨some "x"⟩⟩) (by decide) (Or.inl rfl)

/-- C4 counterexample: on a fresh session with target language `"French"`,
the first entry of the session sequence is the fixed generic prompt, which
is not the step-1 system prompt for `"French"`. -/
theorem session_seed_not_step1_prompt :
    (translate_text "hi" "French" none (some "s") (some (fun _ => none))
        (.success ⟨some ⟨some "x"⟩⟩)).sent.head?
      = some ⟨"system", sessionSystemContent⟩ ∧
    sessionSystemContent ≠ systemPrompt "French" := by
  exact ⟨rfl, by decide⟩

/-- C6 (amended): the constructed user message begins with
`"翻译上下文：\n" + context` whenever a *non-empty* context is supplied, and
with `"需要翻译的文本：\n" + text` when the context is absent or empty (the
source's truthiness test treats an empty context like no context). -/
theorem userMessage_prefix_spec (text : String) (context : Option String) :
    (∀ c, context = some c → c ≠ "" →
      ("翻译上下文：\n" ++ c).toList <+: (userMessage text context).toList) ∧
    ((context = none ∨ context = some "") →
      ("需要翻译的文本：\n" ++ text).toList <+: (userMessage text context).toList) := by
  constructor
  · intro c hc hne
    subst hc
    refine ⟨("\n\n" ++ ("需要翻译的文本：\n" ++ text)).toList, ?_⟩
    simp [userMessage, hne, String.toList]
  · intro h
    rcases h with h | h <;> subst h <;> exact ⟨[], by simp [userMessage, String.toList]⟩

/-- Witness for `userMessage_prefix_spec`: with context `"ctx"` the message
starts with the context header, and without context it starts with the
text header. -/
theorem userMessage_prefix_spec_witness :
    ("翻译上下文：\n" ++ "ctx").toList <+: (userMessage "t" (some "ctx")).toList ∧
    ("需要翻译的文本：\n" ++ "t").toList <+: (userMessage "t" none).toList := by
  exact ⟨(userMessage_prefix_spec "t" (some "ctx")).1 "ctx" rfl (by decide),
    (userMessage_prefix_spec "t" none).2 (Or.inl rfl)⟩

/-- C6 counterexample: the empty string is a provided context, yet the
message built for it is the no-context form, which does not start with the
context header. -/
theorem userMessage_empty_context_counterexample :
    userMessage "t" (some "") = "需要翻译的文本：\nt" ∧
    ¬ (("翻译上下文：\n" ++ "").toList <+: (userMessage "t" (some "")).toList) := by
  exact ⟨rfl, by decide⟩

/-- The initially empty session cache of the repeated-call scenario. -/
def emptyCache : Dict := fun _ => none

/-- First call of the scenario: fresh session `"s"`, reply `"r1"`. -/
def firstCall : TranslateResult :=
  translate_text "t1" "zh" none (some "s") (some emptyCache) (.success ⟨some ⟨some "r1"⟩⟩)

/-- The session cache after the first call. -/
def cacheAfterFirst : Dict := firstCall.cache.getD emptyCache

/-- Second call on the same session, reply `"r2"`. -/
def secondCall : TranslateResult :=
  translate_text "t2" "zh" none (some "s") (some cacheAfterFirst) (.success ⟨some ⟨some "r2"⟩⟩)

/-- The session cache after the second call. -/
def cacheAfterSecond : Dict := secondCall.cache.getD emptyCache

/-- Third call on the same session, reply `"r3"`. -/
def thirdCall : TranslateResult :=
  translate_text "t3" "zh" none (some "s") (some cacheAfterSecond) (.success ⟨some ⟨some "r3"⟩⟩)

/-- The session cache after the third call. -/
def cacheAfterThird : Dict := thirdCall.cache.getD emptyCache

/-- C1: what two successful calls on the fresh session `"s"` really store.
After the first call the stored sequence is `[assistant "r1"]` (the fresh
default list that received the system and user messages was never written
back, and `__save_session` re-fetched an empty one); just before the second
assistant reply is appended the stored sequence has length 2, and after the
second call length 3 — not the 4 and 5 of the specified
`[system, user1, assistant1, user2(, assistant2)]` lifecycle. -/
theorem two_call_session_stored_lengths :
    cacheAfterFirst "s" = some [⟨"assistant", "r1"⟩] ∧
    (get_session "s" (userMessage "t2" none) cacheAfterFirst).2 "s"
      = some [⟨"assistant", "r1"⟩, ⟨"user", "需要翻译的文本：\nt2"⟩] ∧
    cacheAfterSecond "s"
      = some [⟨"assistant", "r1"⟩, ⟨"user", "需要翻译的文本：\nt2"⟩,
          ⟨"assistant", "r2"⟩] := by
  exact ⟨by decide, by decide, by decide⟩

/-- C2: no call on session `"s"` ever stores a system message: the stored
sequence holds zero system-role entries after the first, second and third
successful calls (the claim's single seeded system message never reaches
the cache). -/
theorem session_stores_no_system_message :
    ((cacheAfterFirst "s").getD []).filter (fun m => m.role == "system") = [] ∧
    ((cacheAfterSecond "s").getD []).filter (fun m => m.role == "system") = [] ∧
    ((cacheAfterThird "s").getD []).filter (fun m => m.role == "system") = [] := by
  exact ⟨by decide, by decide, by decide⟩
